import Mathlib

/-! Shallow embedding of the Contoso customer-service data-access layer
(file src/mcp/contoso_tools_cosmos.py).  Collections of the document
store are modelled as Lean lists of records, Cosmos SQL queries as list
filters and sorts, monetary amounts as rationals, and the Python
functions as pure state-passing Lean functions.  Functions that raise
ValueError are modelled with an error type that records the error
taxonomy (NotFound for an absent primary entity, InvalidInput for an
empty or no-op update payload) together with the exact message raised
by the Python code.  The wall clock (datetime.now) is passed in as an
explicit argument. -/

namespace Contoso

/-- Error taxonomy of the data-access layer.  Each constructor carries
the message string of the ValueError raised by the Python code. -/
inductive CSErr where
  | notFound (msg : String)
  | invalidInput (msg : String)
  deriving DecidableEq, Repr

/-- Code-point comparison of character lists: the lexicographic order
the document store applies to the ASCII date strings compared by
range queries such as the promotion date-range query. -/
def charListLe : List Char → List Char → Bool
  | [], _ => true
  | _ :: _, [] => false
  | a :: as, b :: bs =>
    if a.toNat < b.toNat then true
    else if b.toNat < a.toNat then false
    else charListLe as bs

/-- String comparison used for date strings (lexicographic on code
points, which agrees with chronological order for ISO dates). -/
def strLe (a b : String) : Bool := charListLe a.toList b.toList

/-- Whether the first character list is an initial segment of the
second. -/
def startsWithB : List Char → List Char → Bool
  | [], _ => true
  | _ :: _, [] => false
  | a :: as, b :: bs => a == b && startsWithB as bs

/-- Whether the needle occurs as a contiguous run inside the haystack,
on character lists. -/
def hasSub (needle : List Char) : List Char → Bool
  | [] => startsWithB needle []
  | c :: t => startsWithB needle (c :: t) || hasSub needle t

/-- Python substring membership: the needle occurs inside the hay. -/
def strContains (hay needle : String) : Bool := hasSub needle.toList hay.toList

/-- The single-quote character (code point 39) as a string; the code
builds the loyalty tag by interpolating the level between two of
these. -/
def sq : String := String.singleton (Char.ofNat 39)

/-- Sequential ID Allocator step shared by pay_invoice_async,
unlock_account_async and create_support_ticket_async: run
SELECT VALUE MAX of the identifier field, default the maximum to 0
when the collection is empty (the code guards both an empty result
set and a null aggregate), and add one. -/
def allocNext (ids : List Nat) : Nat :=
  (match ids.max? with
   | some m => m
   | none => 0) + 1

/-- The Python builtin max on two rationals, as applied by the code to
clamp outstanding balances at zero.  Written with an if so that it
evaluates by kernel reduction; it agrees with the mathematical max. -/
def pymax (a b : ℚ) : ℚ := if b ≤ a then a else b

lemma pymax_eq_max (a b : ℚ) : pymax a b = max a b := by
  unfold pymax
  rcases le_or_lt b a with h | h
  · rw [if_pos h, max_eq_left h]
  · rw [if_neg (not_le.mpr h), max_eq_right h.le]

/-- A document of the Payments collection. -/
structure Payment where
  id : String
  payment_id : Nat
  invoice_id : Nat
  payment_date : String
  amount : ℚ
  method : String
  status : String
  deriving DecidableEq, Repr

/-- A document of the Invoices collection (fields read by the code). -/
structure Invoice where
  invoice_id : Nat
  subscription_id : Nat
  amount : ℚ
  deriving DecidableEq, Repr

/-- A document of the Subscriptions collection (fields read by the
structured operations; the field-update operation below works on a
raw document model instead). -/
structure Subscription where
  subscription_id : Nat
  customer_id : Nat
  product_id : Nat
  deriving DecidableEq, Repr

/-- A document of the Products collection. -/
structure Product where
  product_id : Nat
  name : String
  description : String
  category : String
  monthly_fee : ℚ
  deriving DecidableEq, Repr

/-- A document of the Customers collection (fields the embedded
operations read). -/
structure Customer where
  customer_id : Nat
  loyalty_level : String
  deriving DecidableEq, Repr

/-- A document of the Promotions collection.  eligibility_criteria is
optional: the code reads it with promo.get and normalizes a missing
or null value. -/
structure Promotion where
  promotion_id : Nat
  product_id : Nat
  eligibility_criteria : Option String
  start_date : String
  end_date : String
  deriving DecidableEq, Repr

/-- A document of the SecurityLogs collection. -/
structure SecurityLog where
  id : String
  log_id : Nat
  customer_id : Nat
  event_type : String
  event_timestamp : String
  description : String
  deriving DecidableEq, Repr

/-- A document of the ServiceIncidents collection (projected fields). -/
structure ServiceIncident where
  incident_id : Nat
  subscription_id : Nat
  incident_date : String
  description : String
  resolution_status : String
  deriving DecidableEq, Repr

-- ======================================================================
-- Financial derivation and subscription detail
-- ======================================================================

/-- Payments the loop body of get_subscription_detail_async fetches for
one invoice: all statuses, kept on the invoice for display. -/
def paymentsFor (payments : List Payment) (iid : Nat) : List Payment :=
  payments.filter (fun p => p.invoice_id == iid)

/-- Sum of the amounts of the payments whose status is successful, as
computed by the loop body of get_subscription_detail_async. -/
def successfulPaid (payments : List Payment) : ℚ :=
  ((payments.filter (fun p => p.status == "successful")).map (fun p => p.amount)).sum

/-- An invoice as returned by get_subscription_detail_async: the
invoice document enriched with its payments and the derived
outstanding balance. -/
structure EnrichedInvoice where
  invoice : Invoice
  payments : List Payment
  outstanding : ℚ
  deriving DecidableEq, Repr

/-- Loop body of the invoice-enrichment loop of
get_subscription_detail_async. -/
def enrichInvoice (payments : List Payment) (inv : Invoice) : EnrichedInvoice :=
  let pays := paymentsFor payments inv.invoice_id
  let total_paid := successfulPaid pays
  ⟨inv, pays, pymax (inv.amount - total_paid) 0⟩

/-- Product fields merged onto the subscription view when the
referenced product resolves. -/
structure ProductFields where
  product_name : String
  product_description : String
  category : String
  monthly_fee : ℚ
  deriving DecidableEq, Repr

/-- Composite view returned by get_subscription_detail_async. -/
structure SubscriptionDetail where
  subscription : Subscription
  product_fields : Option ProductFields
  invoices : List EnrichedInvoice
  service_incidents : List ServiceIncident
  deriving DecidableEq, Repr

/-- Embedding of get_subscription_detail_async: resolve the
subscription (NotFound if absent), optionally merge product fields,
enrich every invoice of the subscription with its payments and
outstanding balance, and attach the service incidents. -/
def get_subscription_detail_async (subs : List Subscription)
    (products : List Product) (invoices : List Invoice)
    (payments : List Payment) (incidents : List ServiceIncident)
    (sid : Nat) : Except CSErr SubscriptionDetail :=
  match subs.filter (fun s => s.subscription_id == sid) with
  | [] => .error (.notFound "Subscription not found")
  | s :: _ =>
    let prods := products.filter (fun p => p.product_id == s.product_id)
    let pf := prods.head?.map
      (fun p => ProductFields.mk p.name p.description p.category p.monthly_fee)
    let invs := invoices.filter (fun i => i.subscription_id == sid)
    let enriched := invs.map (enrichInvoice payments)
    let incs := incidents.filter (fun i => i.subscription_id == sid)
    .ok ⟨s, pf, enriched, incs⟩

-- ======================================================================
-- Helper lemmas
-- ======================================================================

lemma successfulPaid_filter_invariant (payments : List Payment) (iid : Nat) :
    successfulPaid (paymentsFor (payments.filter (fun p => p.status == "successful")) iid)
      = successfulPaid (paymentsFor payments iid) := by
  simp only [successfulPaid, paymentsFor, List.filter_filter]
  congr 1
  congr 1
  apply List.filter_congr
  intro p _
  cases h1 : (p.invoice_id == iid) <;> cases h2 : (p.status == "successful") <;> simp [h1, h2]

/-- C1: for every invoice and every list of payments, the outstanding
balance computed by get_subscription_detail_async equals
max(amount − sum of successful payment amounts, 0); it is never
negative, and payments whose status is not successful are excluded
from the deduction (restricting the payments collection to its
successful entries leaves the outstanding balance unchanged). -/
theorem outstanding_balance_spec (subs : List Subscription)
    (products : List Product) (invoices : List Invoice)
    (payments : List Payment) (incidents : List ServiceIncident)
    (sid : Nat) (d : SubscriptionDetail)
    (h : get_subscription_detail_async subs products invoices payments incidents sid
          = .ok d)
    (ei : EnrichedInvoice) (hei : ei ∈ d.invoices) :
    ei.outstanding
        = max (ei.invoice.amount - successfulPaid (paymentsFor payments ei.invoice.invoice_id)) 0
      ∧ 0 ≤ ei.outstanding
      ∧ ei.outstanding
          = (enrichInvoice (payments.filter (fun p => p.status == "successful")) ei.invoice).outstanding := by
  unfold get_subscription_detail_async at h
  cases hf : subs.filter (fun s => s.subscription_id == sid) with
  | nil => rw [hf] at h; exact absurd h (by simp)
  | cons s rest =>
    rw [hf] at h
    simp only [Except.ok.injEq] at h
    subst h
    simp only [List.mem_map] at hei
    obtain ⟨inv, _, hinv⟩ := hei
    subst hinv
    refine ⟨pymax_eq_max _ _, ?_, ?_⟩
    · rw [show (enrichInvoice payments inv).outstanding
          = pymax (inv.amount - successfulPaid (paymentsFor payments inv.invoice_id)) 0
        from rfl, pymax_eq_max]
      exact le_max_right _ _
    · simp only [enrichInvoice]
      rw [successfulPaid_filter_invariant]

/-- Witness for C1 at a concrete store: one subscription, one invoice
of amount 150 with a successful payment of 50 and a partial payment
of 25; the outstanding balance is 100. -/
theorem outstanding_balance_spec_witness :
    (enrichInvoice
        [⟨"payment_1", 1, 10, "2025-01-02", 50, "credit_card", "successful"⟩,
         ⟨"payment_2", 2, 10, "2025-01-03", 25, "credit_card", "partial"⟩]
        ⟨10, 1, 150⟩).outstanding
        = max ((150 : ℚ) - successfulPaid (paymentsFor
            [⟨"payment_1", 1, 10, "2025-01-02", 50, "credit_card", "successful"⟩,
             ⟨"payment_2", 2, 10, "2025-01-03", 25, "credit_card", "partial"⟩] 10)) 0
      ∧ 0 ≤ (enrichInvoice
        [⟨"payment_1", 1, 10, "2025-01-02", 50, "credit_card", "successful"⟩,
         ⟨"payment_2", 2, 10, "2025-01-03", 25, "credit_card", "partial"⟩]
        ⟨10, 1, 150⟩).outstanding
      ∧ (enrichInvoice
        [⟨"payment_1", 1, 10, "2025-01-02", 50, "credit_card", "successful"⟩,
         ⟨"payment_2", 2, 10, "2025-01-03", 25, "credit_card", "partial"⟩]
        ⟨10, 1, 150⟩).outstanding
        = (enrichInvoice
            ([⟨"payment_1", 1, 10, "2025-01-02", 50, "credit_card", "successful"⟩,
              ⟨"payment_2", 2, 10, "2025-01-03", 25, "credit_card", "partial"⟩].filter
                (fun p => p.status == "successful"))
            ⟨10, 1, 150⟩).outstanding := by
  have h := outstanding_balance_spec [⟨1, 1, 1⟩] [] [⟨10, 1, 150⟩]
    [⟨"payment_1", 1, 10, "2025-01-02", 50, "credit_card", "successful"⟩,
     ⟨"payment_2", 2, 10, "2025-01-03", 25, "credit_card", "partial"⟩] [] 1
    ⟨⟨1, 1, 1⟩, none,
      [enrichInvoice
        [⟨"payment_1", 1, 10, "2025-01-02", 50, "credit_card", "successful"⟩,
         ⟨"payment_2", 2, 10, "2025-01-03", 25, "credit_card", "partial"⟩]
        ⟨10, 1, 150⟩], []⟩
    (by rfl)
    (enrichInvoice
        [⟨"payment_1", 1, 10, "2025-01-02", 50, "credit_card", "successful"⟩,
         ⟨"payment_2", 2, 10, "2025-01-03", 25, "credit_card", "partial"⟩]
        ⟨10, 1, 150⟩)
    (List.mem_singleton.mpr rfl)
  exact h

-- ======================================================================
-- Billing summary
-- ======================================================================

/-- One entry of the billing summary invoice list. -/
structure OutstandingEntry where
  invoice_id : Nat
  outstanding : ℚ
  deriving DecidableEq, Repr

/-- Result of get_billing_summary_async. -/
structure BillingSummary where
  customer_id : Nat
  total_due : ℚ
  invoices : List OutstandingEntry
  deriving DecidableEq, Repr

/-- Loop body of get_billing_summary_async for one invoice: fetch the
successful payments of the invoice and derive its outstanding
balance. -/
def billingEntry (payments : List Payment) (inv : Invoice) : OutstandingEntry :=
  let paid := ((payments.filter
      (fun p => p.invoice_id == inv.invoice_id && p.status == "successful")).map
        (fun p => p.amount)).sum
  ⟨inv.invoice_id, pymax (inv.amount - paid) 0⟩

/-- Embedding of get_billing_summary_async: fetch the customer's
subscriptions (returning a zero summary when there are none), and for
every invoice of every subscription derive the outstanding balance and
accumulate the total due. -/
def get_billing_summary_async (subs : List Subscription) (invoices : List Invoice)
    (payments : List Payment) (cid : Nat) : BillingSummary :=
  let customer_subs := subs.filter (fun s => s.customer_id == cid)
  if customer_subs.isEmpty then ⟨cid, 0, []⟩
  else
    let subscription_ids := customer_subs.map (fun s => s.subscription_id)
    let outstanding_list := subscription_ids.flatMap (fun sub_id =>
      (invoices.filter (fun i => i.subscription_id == sub_id)).map (billingEntry payments))
    ⟨cid, (outstanding_list.map (fun e => e.outstanding)).sum, outstanding_list⟩

/-- The pure outstanding-balance function of the spec, written with the
two-stage fetch of the subscription-detail path: restrict the payment
ledger to the invoice, then to the successful entries. -/
def outstandingSpec (payments : List Payment) (inv : Invoice) : ℚ :=
  max (inv.amount - successfulPaid (paymentsFor payments inv.invoice_id)) 0

lemma billingEntry_outstanding (payments : List Payment) (inv : Invoice) :
    (billingEntry payments inv).outstanding = outstandingSpec payments inv := by
  simp only [billingEntry, outstandingSpec, successfulPaid, paymentsFor,
    List.filter_filter]
  have hfe : payments.filter (fun p => p.invoice_id == inv.invoice_id && p.status == "successful")
      = payments.filter (fun a => a.status == "successful" && a.invoice_id == inv.invoice_id) := by
    apply List.filter_congr
    intro p _
    cases h1 : (p.invoice_id == inv.invoice_id) <;>
      cases h2 : (p.status == "successful") <;> simp [h1, h2]
  rw [hfe, pymax_eq_max]

lemma flatMap_map_eq {α β γ : Type} (f : α → β) (g : β → List γ) (l : List α) :
    (l.map f).flatMap g = l.flatMap (fun a => g (f a)) := by
  induction l with
  | nil => rfl
  | cons a t ih => simp [ih]

lemma sum_outstanding_subs (payments : List Payment) (invoices : List Invoice)
    (l : List Subscription) :
    ((l.flatMap (fun s =>
        (invoices.filter (fun i => i.subscription_id == s.subscription_id)).map
          (billingEntry payments))).map (fun e => e.outstanding)).sum
      = ((l.flatMap (fun s =>
            invoices.filter (fun i => i.subscription_id == s.subscription_id))).map
          (outstandingSpec payments)).sum := by
  induction l with
  | nil => rfl
  | cons s t ih =>
    simp only [List.flatMap_cons, List.map_append, List.sum_append, ih,
      List.map_map]
    congr 1
    rw [Function.comp_def]
    congr 1
    apply List.map_congr_left
    intro inv _
    exact billingEntry_outstanding payments inv

/-- C2: the total due returned by get_billing_summary_async equals the
sum of the outstanding balances over every invoice of every
subscription of the customer, and a customer with no subscriptions
gets a summary with total_due zero and an empty invoice list rather
than an error (the function is total). -/
theorem billing_summary_spec (subs : List Subscription) (invoices : List Invoice)
    (payments : List Payment) (cid : Nat) :
    (get_billing_summary_async subs invoices payments cid).total_due
        = (((subs.filter (fun s => s.customer_id == cid)).flatMap
              (fun s => invoices.filter
                (fun i => i.subscription_id == s.subscription_id))).map
            (outstandingSpec payments)).sum
      ∧ (subs.filter (fun s => s.customer_id == cid) = [] →
          (get_billing_summary_async subs invoices payments cid).total_due = 0
          ∧ (get_billing_summary_async subs invoices payments cid).invoices = []) := by
  unfold get_billing_summary_async
  cases hE : (subs.filter (fun s => s.customer_id == cid)).isEmpty with
  | true =>
    have hnil : subs.filter (fun s => s.customer_id == cid) = [] :=
      List.isEmpty_iff.mp hE
    simp [hnil]
  | false =>
    have hne : subs.filter (fun s => s.customer_id == cid) ≠ [] := by
      intro hc
      rw [hc] at hE
      simp at hE
    constructor
    · simp only [hE, Bool.false_eq_true, if_false]
      rw [flatMap_map_eq]
      exact sum_outstanding_subs payments invoices _
    · intro hc
      exact absurd hc hne

/-- Witness for C2: a customer with two subscriptions, two invoices and
a mixed payment ledger, and a customer with no subscriptions. -/
theorem billing_summary_spec_witness :
    (get_billing_summary_async
        [⟨1, 7, 1⟩, ⟨2, 7, 2⟩]
        [⟨10, 1, 150⟩, ⟨11, 2, 40⟩]
        [⟨"payment_1", 1, 10, "2025-01-02", 50, "credit_card", "successful"⟩,
         ⟨"payment_2", 2, 10, "2025-01-03", 500, "credit_card", "failed"⟩,
         ⟨"payment_3", 3, 11, "2025-01-04", 60, "credit_card", "successful"⟩]
        7).total_due
      = (((([⟨1, 7, 1⟩, ⟨2, 7, 2⟩] : List Subscription).filter
            (fun s => s.customer_id == 7)).flatMap
            (fun s => ([⟨10, 1, 150⟩, ⟨11, 2, 40⟩] : List Invoice).filter
              (fun i => i.subscription_id == s.subscription_id))).map
          (outstandingSpec
            [⟨"payment_1", 1, 10, "2025-01-02", 50, "credit_card", "successful"⟩,
             ⟨"payment_2", 2, 10, "2025-01-03", 500, "credit_card", "failed"⟩,
             ⟨"payment_3", 3, 11, "2025-01-04", 60, "credit_card", "successful"⟩])).sum
    ∧ (get_billing_summary_async [⟨1, 7, 1⟩] [] [] 9).total_due = 0
    ∧ (get_billing_summary_async [⟨1, 7, 1⟩] [] [] 9).invoices = [] := by
  refine ⟨(billing_summary_spec _ _ _ 7).1, ?_⟩
  exact (billing_summary_spec [⟨1, 7, 1⟩] [] [] 9).2 (by rfl)

-- ======================================================================
-- Mutation operations: record payment, unlock account, create ticket
-- ======================================================================

/-- Result of pay_invoice_async. -/
structure PayResult where
  invoice_id : Nat
  outstanding : ℚ
  deriving DecidableEq, Repr

/-- Sum of the existing successful payments of an invoice, as queried
by pay_invoice_async (invoice id and status filtered in one query). -/
def currentPaid (payments : List Payment) (iid : Nat) : ℚ :=
  ((payments.filter (fun p => p.invoice_id == iid && p.status == "successful")).map
    (fun p => p.amount)).sum

/-- Embedding of pay_invoice_async: resolve the invoice (NotFound if
absent), sum the existing successful payments, allocate the next
payment id by scanning the maximum, append the new successful payment
record, and return the new outstanding balance.  The second component
is the new state of the Payments collection (unchanged on error). -/
def pay_invoice_async (invoices : List Invoice) (payments : List Payment)
    (iid : Nat) (amount : ℚ) (method today : String) :
    Except CSErr PayResult × List Payment :=
  match invoices.filter (fun i => i.invoice_id == iid) with
  | [] => (.error (.notFound "Invoice not found"), payments)
  | invoice :: _ =>
    let current_paid := currentPaid payments iid
    let max_payment_id :=
      match (payments.map (fun p => p.payment_id)).max? with
      | some m => m
      | none => 0
    let new_payment : Payment :=
      ⟨"payment_" ++ toString (max_payment_id + 1), max_payment_id + 1, iid,
        today, amount, method, "successful"⟩
    (.ok ⟨iid, pymax (invoice.amount - (current_paid + amount)) 0⟩,
      payments ++ [new_payment])

/-- A document of the SupportTickets collection. -/
structure SupportTicket where
  id : String
  ticket_id : Nat
  customer_id : Nat
  subscription_id : Nat
  category : String
  opened_at : String
  closed_at : Option String
  status : String
  priority : String
  subject : String
  description : String
  cs_agent : String
  deriving DecidableEq, Repr

/-- Embedding of create_support_ticket_async: allocate the next ticket
id by scanning the maximum and append the new open ticket. -/
def create_support_ticket_async (tickets : List SupportTicket)
    (cid sid : Nat) (category priority subject description opened : String) :
    SupportTicket × List SupportTicket :=
  let max_ticket_id :=
    match (tickets.map (fun t => t.ticket_id)).max? with
    | some m => m
    | none => 0
  let new_ticket : SupportTicket :=
    ⟨"ticket_" ++ toString (max_ticket_id + 1), max_ticket_id + 1, cid, sid,
      category, opened, none, "open", priority, subject, description, "AI_Bot"⟩
  (new_ticket, tickets ++ [new_ticket])

/-- Embedding of unlock_account_async: look for the most recent
account_locked event of the customer (TOP 1 ordered by timestamp
descending); fail with NotFound when there is none, otherwise allocate
the next log id and append an account_unlocked event.  The second
component is the new state of the SecurityLogs collection (unchanged
on error). -/
def unlock_account_async (logs : List SecurityLog) (cid : Nat) (now : String) :
    Except CSErr String × List SecurityLog :=
  let locked := logs.filter
    (fun l => l.customer_id == cid && l.event_type == "account_locked")
  match (locked.mergeSort (fun a b => strLe b.event_timestamp a.event_timestamp)).take 1 with
  | [] => (.error (.notFound "No recent lock event; nothing to do."), logs)
  | _ :: _ =>
    let max_log_id :=
      match (logs.map (fun l => l.log_id)).max? with
      | some m => m
      | none => 0
    let unlock_event : SecurityLog :=
      ⟨"security_log_" ++ toString (max_log_id + 1), max_log_id + 1, cid,
        "account_unlocked", now, "Unlocked via API"⟩
    (.ok "Account unlocked", logs ++ [unlock_event])

lemma take_one_mergeSort_eq_nil {α : Type} (le : α → α → Bool) (l : List α) :
    (l.mergeSort le).take 1 = [] ↔ l = [] := by
  constructor
  · intro h
    have hlen := congrArg List.length h
    simp only [List.length_take, List.length_mergeSort, List.length_nil] at hlen
    cases l with
    | nil => rfl
    | cons a t => simp at hlen
  · intro h
    subst h
    simp

/-- C5: for an existing invoice, pay_invoice_async appends exactly one
new payment record with status successful and the next allocated
payment id, and returns the outstanding balance
max(amount − (prior successful sum + payment amount), 0); for a
nonexistent invoice it fails with NotFound and leaves the Payments
collection unchanged. -/
theorem pay_invoice_spec (invoices : List Invoice) (payments : List Payment)
    (iid : Nat) (amount : ℚ) (method today : String) :
    (invoices.filter (fun i => i.invoice_id == iid) = [] →
      pay_invoice_async invoices payments iid amount method today
        = (.error (.notFound "Invoice not found"), payments))
    ∧ ∀ invoice rest,
        invoices.filter (fun i => i.invoice_id == iid) = invoice :: rest →
        pay_invoice_async invoices payments iid amount method today
          = (.ok ⟨iid, pymax (invoice.amount - (currentPaid payments iid + amount)) 0⟩,
             payments
               ++ [⟨"payment_" ++ toString (allocNext (payments.map (fun p => p.payment_id))),
                    allocNext (payments.map (fun p => p.payment_id)), iid, today,
                    amount, method, "successful"⟩])
        ∧ pymax (invoice.amount - (currentPaid payments iid + amount)) 0
            = max (invoice.amount - (currentPaid payments iid + amount)) 0 := by
  constructor
  · intro h
    simp only [pay_invoice_async, h]
  · intro invoice rest h
    exact ⟨by simp only [pay_invoice_async, h, allocNext], pymax_eq_max _ _⟩

/-- Witness for C5: paying 30 against a 150 invoice that already has a
successful payment of 50 and a failed payment of 500 leaves an
outstanding balance of 70 and appends payment id 3; paying a
nonexistent invoice fails and changes nothing. -/
theorem pay_invoice_spec_witness :
    pay_invoice_async [⟨10, 1, 150⟩]
        [⟨"payment_1", 1, 10, "2025-01-02", 50, "credit_card", "successful"⟩,
         ⟨"payment_2", 2, 10, "2025-01-03", 500, "credit_card", "failed"⟩]
        10 30 "credit_card" "2025-02-01"
      = (.ok ⟨10, pymax ((150 : ℚ) - (currentPaid
            [⟨"payment_1", 1, 10, "2025-01-02", 50, "credit_card", "successful"⟩,
             ⟨"payment_2", 2, 10, "2025-01-03", 500, "credit_card", "failed"⟩] 10 + 30)) 0⟩,
         [⟨"payment_1", 1, 10, "2025-01-02", 50, "credit_card", "successful"⟩,
          ⟨"payment_2", 2, 10, "2025-01-03", 500, "credit_card", "failed"⟩,
          ⟨"payment_3", 3, 10, "2025-02-01", 30, "credit_card", "successful"⟩])
    ∧ pymax ((150 : ℚ) - (currentPaid
          [⟨"payment_1", 1, 10, "2025-01-02", 50, "credit_card", "successful"⟩,
           ⟨"payment_2", 2, 10, "2025-01-03", 500, "credit_card", "failed"⟩] 10 + 30)) 0
        = 70
    ∧ pay_invoice_async [⟨10, 1, 150⟩]
        [⟨"payment_1", 1, 10, "2025-01-02", 50, "credit_card", "successful"⟩,
         ⟨"payment_2", 2, 10, "2025-01-03", 500, "credit_card", "failed"⟩]
        99 30 "credit_card" "2025-02-01"
      = (.error (.notFound "Invoice not found"),
         [⟨"payment_1", 1, 10, "2025-01-02", 50, "credit_card", "successful"⟩,
          ⟨"payment_2", 2, 10, "2025-01-03", 500, "credit_card", "failed"⟩]) := by
  refine ⟨?_, ?_, ?_⟩
  · have h := (pay_invoice_spec [⟨10, 1, 150⟩]
      [⟨"payment_1", 1, 10, "2025-01-02", 50, "credit_card", "successful"⟩,
       ⟨"payment_2", 2, 10, "2025-01-03", 500, "credit_card", "failed"⟩]
      10 30 "credit_card" "2025-02-01").2 ⟨10, 1, 150⟩ [] (by rfl)
    exact h.1
  · norm_num [currentPaid, pymax,
      show (("failed" : String) == "successful") = false from rfl]
  · exact (pay_invoice_spec [⟨10, 1, 150⟩]
      [⟨"payment_1", 1, 10, "2025-01-02", 50, "credit_card", "successful"⟩,
       ⟨"payment_2", 2, 10, "2025-01-03", 500, "credit_card", "failed"⟩]
      99 30 "credit_card" "2025-02-01").1 (by rfl)

/-- C7: for a customer with no account_locked entry in the security
log, unlock_account_async fails with NotFound and the SecurityLogs
collection is unchanged; with at least one account_locked entry it
appends exactly one account_unlocked event under the next allocated
log id. -/
theorem unlock_account_spec (logs : List SecurityLog) (cid : Nat) (now : String) :
    (logs.filter (fun l => l.customer_id == cid && l.event_type == "account_locked") = [] →
      unlock_account_async logs cid now
        = (.error (.notFound "No recent lock event; nothing to do."), logs))
    ∧ (logs.filter (fun l => l.customer_id == cid && l.event_type == "account_locked") ≠ [] →
        unlock_account_async logs cid now
          = (.ok "Account unlocked",
             logs ++ [⟨"security_log_"
                        ++ toString (allocNext (logs.map (fun l => l.log_id))),
                      allocNext (logs.map (fun l => l.log_id)), cid,
                      "account_unlocked", now, "Unlocked via API"⟩])) := by
  constructor
  · intro h
    simp only [unlock_account_async, h, List.mergeSort_nil, List.take_nil]
  · intro h
    have hne : ((logs.filter
        (fun l => l.customer_id == cid && l.event_type == "account_locked")).mergeSort
          (fun a b => strLe b.event_timestamp a.event_timestamp)).take 1 ≠ [] := by
      intro hc
      exact h ((take_one_mergeSort_eq_nil _ _).mp hc)
    obtain ⟨x, t, hT⟩ : ∃ x t, ((logs.filter
        (fun l => l.customer_id == cid && l.event_type == "account_locked")).mergeSort
          (fun a b => strLe b.event_timestamp a.event_timestamp)).take 1 = x :: t := by
      cases hE : ((logs.filter
          (fun l => l.customer_id == cid && l.event_type == "account_locked")).mergeSort
            (fun a b => strLe b.event_timestamp a.event_timestamp)).take 1 with
      | nil => exact absurd hE hne
      | cons a b => exact ⟨a, b, rfl⟩
    simp only [unlock_account_async, hT, allocNext]

/-- Witness for C7: a customer with only a login event cannot be
unlocked and the log collection is left as it was; a customer with an
account_locked event gets exactly one appended account_unlocked event
with log id 3. -/
theorem unlock_account_spec_witness :
    unlock_account_async
        [⟨"security_log_1", 1, 4, "login", "2025-01-01 10:00:00", "ok"⟩] 4
        "2025-03-01 09:00:00"
      = (.error (.notFound "No recent lock event; nothing to do."),
         [⟨"security_log_1", 1, 4, "login", "2025-01-01 10:00:00", "ok"⟩])
    ∧ unlock_account_async
        [⟨"security_log_1", 1, 4, "login", "2025-01-01 10:00:00", "ok"⟩,
         ⟨"security_log_2", 2, 4, "account_locked", "2025-02-01 10:00:00", "locked"⟩] 4
        "2025-03-01 09:00:00"
      = (.ok "Account unlocked",
         [⟨"security_log_1", 1, 4, "login", "2025-01-01 10:00:00", "ok"⟩,
          ⟨"security_log_2", 2, 4, "account_locked", "2025-02-01 10:00:00", "locked"⟩,
          ⟨"security_log_3", 3, 4, "account_unlocked", "2025-03-01 09:00:00",
            "Unlocked via API"⟩]) := by
  constructor
  · exact (unlock_account_spec
      [⟨"security_log_1", 1, 4, "login", "2025-01-01 10:00:00", "ok"⟩] 4
      "2025-03-01 09:00:00").1 (by rfl)
  · have h := (unlock_account_spec
      [⟨"security_log_1", 1, 4, "login", "2025-01-01 10:00:00", "ok"⟩,
       ⟨"security_log_2", 2, 4, "account_locked", "2025-02-01 10:00:00", "locked"⟩] 4
      "2025-03-01 09:00:00").2 (by simp)
    rw [h]
    rfl

/-- C3: the Sequential ID Allocator step returns 1 for an empty
collection and the current maximum of the identifier field plus one
otherwise; it is a pure function of the collection state (so two
evaluations against the same state yield the same identifier), and
the identifiers allocated by pay_invoice_async,
create_support_ticket_async and unlock_account_async are exactly this
function applied to the collection as it was before their insert. -/
theorem id_allocator_spec :
    allocNext [] = 1
    ∧ (∀ ids m, ids.max? = some m → allocNext ids = m + 1)
    ∧ (∀ tickets cid sid category priority subject description opened,
        (create_support_ticket_async tickets cid sid category priority subject
            description opened).1.ticket_id
          = allocNext (tickets.map (fun t => t.ticket_id)))
    ∧ (∀ invoices payments iid amount method today,
        invoices.filter (fun i => i.invoice_id == iid) ≠ [] →
        ((pay_invoice_async invoices payments iid amount method today).2).map
            (fun p => p.payment_id)
          = payments.map (fun p => p.payment_id)
              ++ [allocNext (payments.map (fun p => p.payment_id))])
    ∧ (∀ logs cid now,
        logs.filter (fun l => l.customer_id == cid && l.event_type == "account_locked") ≠ [] →
        ((unlock_account_async logs cid now).2).map (fun l => l.log_id)
          = logs.map (fun l => l.log_id)
              ++ [allocNext (logs.map (fun l => l.log_id))]) := by
  refine ⟨rfl, ?_, ?_, ?_, ?_⟩
  · intro ids m h
    simp only [allocNext, h]
  · intro tickets cid sid category priority subject description opened
    rfl
  · intro invoices payments iid amount method today h
    cases hf : invoices.filter (fun i => i.invoice_id == iid) with
    | nil => exact absurd hf h
    | cons invoice rest =>
      simp only [pay_invoice_async, hf, List.map_append, allocNext]
      rfl
  · intro logs cid now h
    have hne : ((logs.filter
        (fun l => l.customer_id == cid && l.event_type == "account_locked")).mergeSort
          (fun a b => strLe b.event_timestamp a.event_timestamp)).take 1 ≠ [] := by
      intro hc
      exact h ((take_one_mergeSort_eq_nil _ _).mp hc)
    obtain ⟨x, t, hT⟩ : ∃ x t, ((logs.filter
        (fun l => l.customer_id == cid && l.event_type == "account_locked")).mergeSort
          (fun a b => strLe b.event_timestamp a.event_timestamp)).take 1 = x :: t := by
      cases hE : ((logs.filter
          (fun l => l.customer_id == cid && l.event_type == "account_locked")).mergeSort
            (fun a b => strLe b.event_timestamp a.event_timestamp)).take 1 with
      | nil => exact absurd hE hne
      | cons a b => exact ⟨a, b, rfl⟩
    simp only [unlock_account_async, hT, List.map_append, allocNext]
    rfl

/-- Witness for C3: the allocator yields 1 on an empty collection and
10 on a collection whose maximum identifier is 9, and the three
mutation operations allocate ids this way at concrete states. -/
theorem id_allocator_spec_witness :
    allocNext [] = 1
    ∧ allocNext [5, 2, 9] = 9 + 1
    ∧ (create_support_ticket_async [] 1 2 "billing" "high" "subj" "desc"
        "2025-01-01 00:00:00").1.ticket_id
      = allocNext (([] : List SupportTicket).map (fun t => t.ticket_id))
    ∧ ((pay_invoice_async [⟨10, 1, 150⟩]
          [⟨"payment_1", 1, 10, "2025-01-02", 50, "credit_card", "successful"⟩]
          10 30 "credit_card" "2025-02-01").2).map (fun p => p.payment_id)
        = [⟨"payment_1", 1, 10, "2025-01-02", 50, "credit_card", "successful"⟩].map
            (fun p : Payment => p.payment_id)
          ++ [allocNext ([⟨"payment_1", 1, 10, "2025-01-02", 50, "credit_card",
                "successful"⟩].map (fun p : Payment => p.payment_id))]
    ∧ ((unlock_account_async
          [⟨"security_log_2", 2, 4, "account_locked", "2025-02-01 10:00:00", "locked"⟩]
          4 "2025-03-01 09:00:00").2).map (fun l => l.log_id)
        = [⟨"security_log_2", 2, 4, "account_locked", "2025-02-01 10:00:00", "locked"⟩].map
            (fun l : SecurityLog => l.log_id)
          ++ [allocNext ([⟨"security_log_2", 2, 4, "account_locked",
                "2025-02-01 10:00:00", "locked"⟩].map (fun l : SecurityLog => l.log_id))] := by
  refine ⟨id_allocator_spec.1, ?_, ?_, ?_, ?_⟩
  · exact id_allocator_spec.2.1 [5, 2, 9] 9 (by rfl)
  · exact id_allocator_spec.2.2.1 [] 1 2 "billing" "high" "subj" "desc"
      "2025-01-01 00:00:00"
  · exact id_allocator_spec.2.2.2.1 [⟨10, 1, 150⟩]
      [⟨"payment_1", 1, 10, "2025-01-02", 50, "credit_card", "successful"⟩]
      10 30 "credit_card" "2025-02-01" (by simp)
  · exact id_allocator_spec.2.2.2.2
      [⟨"security_log_2", 2, 4, "account_locked", "2025-02-01 10:00:00", "locked"⟩]
      4 "2025-03-01 09:00:00" (by simp)

-- ======================================================================
-- Promotion eligibility
-- ======================================================================

/-- Date-range predicate of the active-promotion query: the promotion
is active when start_date <= today and today <= end_date under the
store's string comparison. -/
def datesActive (today : String) (p : Promotion) : Bool :=
  strLe p.start_date today && strLe today p.end_date

/-- Criteria-matching rule of the eligibility loop: normalize a missing
or null criteria text to the empty string, then include the promotion
when the text contains the exact loyalty tag or does not contain the
token loyalty_level at all. -/
def critMatches (loyalty : String) (p : Promotion) : Bool :=
  let crit := p.eligibility_criteria.getD ""
  strContains crit ("loyalty_level = " ++ sq ++ loyalty ++ sq)
    || !(strContains crit "loyalty_level")

/-- Embedding of get_eligible_promotions_async: resolve the customer's
loyalty level (NotFound if the customer is absent), fetch the
promotions whose date range contains today, and keep those whose
criteria text matches the loyalty level. -/
def get_eligible_promotions_async (customers : List Customer)
    (promotions : List Promotion) (cid : Nat) (today : String) :
    Except CSErr (List Promotion) :=
  match customers.filter (fun c => c.customer_id == cid) with
  | [] => .error (.notFound "Customer not found")
  | cust :: _ =>
    let active := promotions.filter (datesActive today)
    .ok (active.filter (critMatches cust.loyalty_level))

lemma eligible_result (customers : List Customer) (promotions : List Promotion)
    (cid : Nat) (today : String) (cust : Customer) (rest : List Customer)
    (h : customers.filter (fun c => c.customer_id == cid) = cust :: rest) :
    get_eligible_promotions_async customers promotions cid today
      = .ok ((promotions.filter (datesActive today)).filter
          (critMatches cust.loyalty_level)) := by
  simp only [get_eligible_promotions_async, h]

lemma strContains_empty_hay (needle : String) (hne : needle.toList ≠ []) :
    strContains "" needle = false := by
  unfold strContains
  cases hn : needle.toList with
  | nil => exact absurd hn hne
  | cons c t => rfl

/-- C4: for an existing customer, get_eligible_promotions_async returns
exactly the promotions whose date range contains today and whose
criteria text either contains the exact loyalty tag of the customer's
loyalty level or does not contain the token loyalty_level (the only
way the criteria texts mention loyalty) at all. -/
theorem eligible_promotions_spec (customers : List Customer)
    (promotions : List Promotion) (cid : Nat) (today : String)
    (cust : Customer) (rest : List Customer)
    (h : customers.filter (fun c => c.customer_id == cid) = cust :: rest)
    (p : Promotion) :
    get_eligible_promotions_async customers promotions cid today
      = .ok ((promotions.filter (datesActive today)).filter
          (critMatches cust.loyalty_level))
    ∧ (p ∈ (promotions.filter (datesActive today)).filter
          (critMatches cust.loyalty_level)
        ↔ p ∈ promotions
          ∧ (strLe p.start_date today && strLe today p.end_date) = true
          ∧ (strContains (p.eligibility_criteria.getD "")
                ("loyalty_level = " ++ sq ++ cust.loyalty_level ++ sq) = true
             ∨ strContains (p.eligibility_criteria.getD "") "loyalty_level" = false)) := by
  refine ⟨eligible_result _ _ _ _ _ _ h, ?_⟩
  simp only [List.mem_filter, datesActive, critMatches, and_assoc,
    Bool.and_eq_true, Bool.or_eq_true, Bool.not_eq_true']

/-- Witness for C4: with today inside the date range, a Gold customer
sees both the Gold-restricted promotion and the any-customer
promotion, a Silver customer sees only the any-customer one, and an
expired promotion is returned to neither. -/
theorem eligible_promotions_spec_witness :
    get_eligible_promotions_async [⟨1, "Gold"⟩, ⟨2, "Silver"⟩]
        [⟨100, 1, some ("loyalty_level = " ++ sq ++ "Gold" ++ sq), "2025-06-01", "2025-06-30"⟩,
         ⟨101, 1, some "any customer", "2025-06-01", "2025-06-30"⟩,
         ⟨102, 1, some "any customer", "2024-01-01", "2024-02-01"⟩]
        1 "2025-06-15"
      = .ok [⟨100, 1, some ("loyalty_level = " ++ sq ++ "Gold" ++ sq), "2025-06-01", "2025-06-30"⟩,
             ⟨101, 1, some "any customer", "2025-06-01", "2025-06-30"⟩]
    ∧ get_eligible_promotions_async [⟨1, "Gold"⟩, ⟨2, "Silver"⟩]
        [⟨100, 1, some ("loyalty_level = " ++ sq ++ "Gold" ++ sq), "2025-06-01", "2025-06-30"⟩,
         ⟨101, 1, some "any customer", "2025-06-01", "2025-06-30"⟩,
         ⟨102, 1, some "any customer", "2024-01-01", "2024-02-01"⟩]
        2 "2025-06-15"
      = .ok [⟨101, 1, some "any customer", "2025-06-01", "2025-06-30"⟩] := by
  constructor
  · exact ((eligible_promotions_spec [⟨1, "Gold"⟩, ⟨2, "Silver"⟩]
      [⟨100, 1, some ("loyalty_level = " ++ sq ++ "Gold" ++ sq), "2025-06-01", "2025-06-30"⟩,
       ⟨101, 1, some "any customer", "2025-06-01", "2025-06-30"⟩,
       ⟨102, 1, some "any customer", "2024-01-01", "2024-02-01"⟩]
      1 "2025-06-15" ⟨1, "Gold"⟩ [] (by rfl)
      ⟨100, 1, some ("loyalty_level = " ++ sq ++ "Gold" ++ sq), "2025-06-01",
        "2025-06-30"⟩).1).trans (by rfl)
  · exact ((eligible_promotions_spec [⟨1, "Gold"⟩, ⟨2, "Silver"⟩]
      [⟨100, 1, some ("loyalty_level = " ++ sq ++ "Gold" ++ sq), "2025-06-01", "2025-06-30"⟩,
       ⟨101, 1, some "any customer", "2025-06-01", "2025-06-30"⟩,
       ⟨102, 1, some "any customer", "2024-01-01", "2024-02-01"⟩]
      2 "2025-06-15" ⟨2, "Silver"⟩ [] (by rfl)
      ⟨101, 1, some "any customer", "2025-06-01", "2025-06-30"⟩).1).trans (by rfl)

/-- C10: a promotion whose date range contains today and whose
eligibility_criteria field is missing or null is returned for every
customer, whatever the loyalty level: the absent criteria text is
normalized to the empty string, which contains no loyalty token. -/
theorem absent_criteria_spec (customers : List Customer)
    (promotions : List Promotion) (cid : Nat) (today : String)
    (cust : Customer) (rest : List Customer) (p : Promotion)
    (hc : customers.filter (fun c => c.customer_id == cid) = cust :: rest)
    (hp : p ∈ promotions)
    (hd : datesActive today p = true)
    (hcrit : p.eligibility_criteria = none) :
    get_eligible_promotions_async customers promotions cid today
      = .ok ((promotions.filter (datesActive today)).filter
          (critMatches cust.loyalty_level))
    ∧ p ∈ (promotions.filter (datesActive today)).filter
        (critMatches cust.loyalty_level) := by
  refine ⟨eligible_result _ _ _ _ _ _ hc, ?_⟩
  apply List.mem_filter.mpr
  refine ⟨List.mem_filter.mpr ⟨hp, hd⟩, ?_⟩
  have h1 : strContains "" "loyalty_level" = false :=
    strContains_empty_hay _ (by decide)
  simp [critMatches, hcrit, h1]

/-- Witness for C10: an active promotion with no criteria field is
returned both for a Gold and for a Bronze customer. -/
theorem absent_criteria_spec_witness :
    (get_eligible_promotions_async [⟨1, "Gold"⟩, ⟨3, "Bronze"⟩]
        [⟨103, 1, none, "2025-06-01", "2025-06-30"⟩] 1 "2025-06-15"
      = .ok ((([⟨103, 1, none, "2025-06-01", "2025-06-30"⟩] : List Promotion).filter
          (datesActive "2025-06-15")).filter (critMatches "Gold"))
    ∧ (⟨103, 1, none, "2025-06-01", "2025-06-30"⟩ : Promotion)
        ∈ (([⟨103, 1, none, "2025-06-01", "2025-06-30"⟩] : List Promotion).filter
            (datesActive "2025-06-15")).filter (critMatches "Gold"))
    ∧ (⟨103, 1, none, "2025-06-01", "2025-06-30"⟩ : Promotion)
        ∈ (([⟨103, 1, none, "2025-06-01", "2025-06-30"⟩] : List Promotion).filter
            (datesActive "2025-06-15")).filter (critMatches "Bronze") := by
  constructor
  · exact absent_criteria_spec [⟨1, "Gold"⟩, ⟨3, "Bronze"⟩]
      [⟨103, 1, none, "2025-06-01", "2025-06-30"⟩] 1 "2025-06-15"
      ⟨1, "Gold"⟩ [] ⟨103, 1, none, "2025-06-01", "2025-06-30"⟩
      (by rfl) (by decide) (by rfl) rfl
  · exact (absent_criteria_spec [⟨1, "Gold"⟩, ⟨3, "Bronze"⟩]
      [⟨103, 1, none, "2025-06-01", "2025-06-30"⟩] 3 "2025-06-15"
      ⟨3, "Bronze"⟩ [] ⟨103, 1, none, "2025-06-01", "2025-06-30"⟩
      (by rfl) (by decide) (by rfl) rfl).2

-- ======================================================================
-- Semantic retrieval
-- ======================================================================

/-- A document of the KnowledgeDocuments collection. -/
structure KnowledgeDoc where
  id : String
  title : String
  doc_type : String
  content : String
  content_vector : List ℚ
  deriving DecidableEq, Repr

/-- A row of the vector-search query projection:
SELECT TOP @top_k c.id, c.title, c.doc_type, c.content. -/
structure SearchRow where
  id : String
  title : String
  doc_type : String
  content : String
  deriving DecidableEq, Repr

/-- The ORDER BY VectorDistance comparison for a given distance
function and query embedding. -/
def vsLe (dist : List ℚ → List ℚ → ℚ) (emb : List ℚ) (a b : KnowledgeDoc) : Bool :=
  decide (dist a.content_vector emb ≤ dist b.content_vector emb)

/-- The candidate documents the store's query engine selects: the
filtered collection ordered by ascending distance to the query
embedding, truncated to the first top_k. -/
def rankedDocs (dist : List ℚ → List ℚ → ℚ) (docs : List KnowledgeDoc)
    (filt : KnowledgeDoc → Bool) (emb : List ℚ) (top_k : Nat) :
    List KnowledgeDoc :=
  ((docs.filter filt).mergeSort (vsLe dist emb)).take top_k

/-- Embedding of execute_vector_search: equality filters are ANDed
into the WHERE clause before ordering, the result is ordered by
ascending distance and truncated to top_k, and only the projected
fields are selected — the distance itself is not projected. -/
def execute_vector_search (dist : List ℚ → List ℚ → ℚ)
    (docs : List KnowledgeDoc) (emb : List ℚ) (top_k : Nat)
    (filt : KnowledgeDoc → Bool) : List SearchRow :=
  (rankedDocs dist docs filt emb top_k).map
    (fun d => ⟨d.id, d.title, d.doc_type, d.content⟩)

/-- A result item of search_knowledge_base_async: only the display
fields title, doc_type and content are returned to the caller. -/
structure KBResult where
  title : String
  doc_type : String
  content : String
  deriving DecidableEq, Repr

/-- Embedding of search_knowledge_base_async: the embedding call is an
external collaborator, so the query vector is taken as an argument;
the store's distance function is likewise a parameter. -/
def search_knowledge_base_async (dist : List ℚ → List ℚ → ℚ)
    (docs : List KnowledgeDoc) (query_emb : List ℚ) (topk : Nat) :
    List KBResult :=
  (execute_vector_search dist docs query_emb topk (fun _ => true)).map
    (fun r => ⟨r.title, r.doc_type, r.content⟩)

lemma rankedDocs_pairwise (dist : List ℚ → List ℚ → ℚ)
    (docs : List KnowledgeDoc) (filt : KnowledgeDoc → Bool) (emb : List ℚ)
    (top_k : Nat) :
    List.Pairwise
      (fun a b => dist a.content_vector emb ≤ dist b.content_vector emb)
      (rankedDocs dist docs filt emb top_k) := by
  have hs : List.Pairwise (fun a b => vsLe dist emb a b = true)
      ((docs.filter filt).mergeSort (vsLe dist emb)) := by
    apply List.sorted_mergeSort
    · intro a b c hab hbc
      simp only [vsLe, decide_eq_true_eq] at hab hbc ⊢
      exact le_trans hab hbc
    · intro a b
      simp only [vsLe, Bool.or_eq_true, decide_eq_true_eq]
      exact le_total _ _
  have ht : List.Pairwise (fun a b => vsLe dist emb a b = true)
      (rankedDocs dist docs filt emb top_k) :=
    List.Pairwise.sublist (List.take_sublist _ _) hs
  exact ht.imp (fun hab => by
    simpa only [vsLe, decide_eq_true_eq] using hab)

/-- C6: the semantic retrieval pipeline returns exactly
min(top_k, collection size) results, the underlying ranked selection
is ordered by non-decreasing distance to the query vector and is a
permutation of the whole collection whenever top_k is at least the
collection size, and the caller only receives the projected display
fields of the ranked documents, never a distance score. -/
theorem vector_search_spec (dist : List ℚ → List ℚ → ℚ)
    (docs : List KnowledgeDoc) (emb : List ℚ) (k : Nat) :
    (search_knowledge_base_async dist docs emb k).length = min k docs.length
    ∧ search_knowledge_base_async dist docs emb k
        = (rankedDocs dist docs (fun _ => true) emb k).map
            (fun d => ⟨d.title, d.doc_type, d.content⟩)
    ∧ List.Pairwise
        (fun a b => dist a.content_vector emb ≤ dist b.content_vector emb)
        (rankedDocs dist docs (fun _ => true) emb k)
    ∧ (docs.length ≤ k →
        (rankedDocs dist docs (fun _ => true) emb k).Perm docs) := by
  refine ⟨?_, ?_, rankedDocs_pairwise dist docs _ emb k, ?_⟩
  · simp [search_knowledge_base_async, execute_vector_search, rankedDocs,
      List.length_take, List.length_mergeSort, List.filter_true]
  · simp [search_knowledge_base_async, execute_vector_search, List.map_map]
  · intro hk
    have hall : ((docs.filter (fun _ => true)).mergeSort (vsLe dist emb)).take k
        = (docs.filter (fun _ => true)).mergeSort (vsLe dist emb) := by
      apply List.take_of_length_le
      simp [List.length_mergeSort, List.filter_true, hk]
    unfold rankedDocs
    rw [hall]
    have := List.mergeSort_perm (docs.filter (fun _ => true)) (vsLe dist emb)
    simpa [List.filter_true] using this

/-- Witness for C6 with the squared-distance function on 1-dimensional
vectors: requesting 3 of 5 documents returns exactly 3, requesting 9
returns a permutation of all 5, and the ranked prefix is ordered by
non-decreasing distance. -/
theorem vector_search_spec_witness :
    (search_knowledge_base_async
        (fun v w => (((v.zip w).map (fun a => (a.1 - a.2) * (a.1 - a.2)))).sum)
        [⟨"kb_1", "t1", "faq", "c1", [3]⟩, ⟨"kb_2", "t2", "faq", "c2", [1]⟩,
         ⟨"kb_3", "t3", "faq", "c3", [9]⟩, ⟨"kb_4", "t4", "faq", "c4", [2]⟩,
         ⟨"kb_5", "t5", "faq", "c5", [5]⟩]
        [0] 3).length
      = min 3 ([⟨"kb_1", "t1", "faq", "c1", [3]⟩, ⟨"kb_2", "t2", "faq", "c2", [1]⟩,
         ⟨"kb_3", "t3", "faq", "c3", [9]⟩, ⟨"kb_4", "t4", "faq", "c4", [2]⟩,
         ⟨"kb_5", "t5", "faq", "c5", [5]⟩] : List KnowledgeDoc).length
    ∧ (rankedDocs
        (fun v w => (((v.zip w).map (fun a => (a.1 - a.2) * (a.1 - a.2)))).sum)
        [⟨"kb_1", "t1", "faq", "c1", [3]⟩, ⟨"kb_2", "t2", "faq", "c2", [1]⟩,
         ⟨"kb_3", "t3", "faq", "c3", [9]⟩, ⟨"kb_4", "t4", "faq", "c4", [2]⟩,
         ⟨"kb_5", "t5", "faq", "c5", [5]⟩]
        (fun _ => true) [0] 9).Perm
        [⟨"kb_1", "t1", "faq", "c1", [3]⟩, ⟨"kb_2", "t2", "faq", "c2", [1]⟩,
         ⟨"kb_3", "t3", "faq", "c3", [9]⟩, ⟨"kb_4", "t4", "faq", "c4", [2]⟩,
         ⟨"kb_5", "t5", "faq", "c5", [5]⟩]
    ∧ List.Pairwise
        (fun a b : KnowledgeDoc =>
          (fun v w => (((v.zip w).map (fun a => (a.1 - a.2) * (a.1 - a.2)))).sum)
              a.content_vector [0]
            ≤ (fun v w => (((v.zip w).map (fun a => (a.1 - a.2) * (a.1 - a.2)))).sum)
              b.content_vector [0])
        (rankedDocs
          (fun v w => (((v.zip w).map (fun a => (a.1 - a.2) * (a.1 - a.2)))).sum)
          [⟨"kb_1", "t1", "faq", "c1", [3]⟩, ⟨"kb_2", "t2", "faq", "c2", [1]⟩,
           ⟨"kb_3", "t3", "faq", "c3", [9]⟩, ⟨"kb_4", "t4", "faq", "c4", [2]⟩,
           ⟨"kb_5", "t5", "faq", "c5", [5]⟩]
          (fun _ => true) [0] 3) := by
  refine ⟨?_, ?_, ?_⟩
  · apply (vector_search_spec
      (fun v w => (((v.zip w).map (fun a => (a.1 - a.2) * (a.1 - a.2)))).sum)
      [⟨"kb_1", "t1", "faq", "c1", [3]⟩, ⟨"kb_2", "t2", "faq", "c2", [1]⟩,
       ⟨"kb_3", "t3", "faq", "c3", [9]⟩, ⟨"kb_4", "t4", "faq", "c4", [2]⟩,
       ⟨"kb_5", "t5", "faq", "c5", [5]⟩] [0] 3).1
  · apply (vector_search_spec
      (fun v w => (((v.zip w).map (fun a => (a.1 - a.2) * (a.1 - a.2)))).sum)
      [⟨"kb_1", "t1", "faq", "c1", [3]⟩, ⟨"kb_2", "t2", "faq", "c2", [1]⟩,
       ⟨"kb_3", "t3", "faq", "c3", [9]⟩, ⟨"kb_4", "t4", "faq", "c4", [2]⟩,
       ⟨"kb_5", "t5", "faq", "c5", [5]⟩] [0] 9).2.2.2 (by decide)
  · apply (vector_search_spec
      (fun v w => (((v.zip w).map (fun a => (a.1 - a.2) * (a.1 - a.2)))).sum)
      [⟨"kb_1", "t1", "faq", "c1", [3]⟩, ⟨"kb_2", "t2", "faq", "c2", [1]⟩,
       ⟨"kb_3", "t3", "faq", "c3", [9]⟩, ⟨"kb_4", "t4", "faq", "c4", [2]⟩,
       ⟨"kb_5", "t5", "faq", "c5", [5]⟩] [0] 3).2.2.1

-- ======================================================================
-- Customer orders and missing-product degradation
-- ======================================================================

/-- A document of the Orders collection. -/
structure OrderRec where
  order_id : Nat
  customer_id : Nat
  product_id : Nat
  order_date : String
  amount : ℚ
  order_status : String
  deriving DecidableEq, Repr

/-- A row of the result of get_customer_orders_async. -/
structure OrderRow where
  order_id : Nat
  order_date : String
  product_name : String
  amount : ℚ
  order_status : String
  deriving DecidableEq, Repr

/-- Loop body of get_customer_orders_async: resolve the product name,
falling back to the sentinel Unknown when the product is absent. -/
def orderRow (products : List Product) (o : OrderRec) : OrderRow :=
  let prods := products.filter (fun p => p.product_id == o.product_id)
  let product_name :=
    match prods with
    | [] => "Unknown"
    | p :: _ => p.name
  ⟨o.order_id, o.order_date, product_name, o.amount, o.order_status⟩

/-- Embedding of get_customer_orders_async: the customer's orders,
ordered by date descending, each enriched with its product name. -/
def get_customer_orders_async (orders : List OrderRec)
    (products : List Product) (cid : Nat) : List OrderRow :=
  ((orders.filter (fun o => o.customer_id == cid)).mergeSort
      (fun a b => strLe b.order_date a.order_date)).map (orderRow products)

/-- C9: enrichment lookups degrade instead of failing when the
referenced product does not exist: the order row of such an order
carries the sentinel product name Unknown and is still part of the
result (get_customer_orders_async is total, so no error is raised),
and get_subscription_detail_async still succeeds, returning the
subscription with no product enrichment fields attached. -/
theorem missing_product_spec (orders : List OrderRec) (products : List Product)
    (cid : Nat) (o : OrderRec)
    (ho : o ∈ orders) (hc : (o.customer_id == cid) = true)
    (hprod : products.filter (fun p => p.product_id == o.product_id) = [])
    (subs : List Subscription) (invoices : List Invoice)
    (payments : List Payment) (incidents : List ServiceIncident)
    (sid : Nat) (s : Subscription) (rest : List Subscription)
    (hs : subs.filter (fun x => x.subscription_id == sid) = s :: rest)
    (hsprod : products.filter (fun p => p.product_id == s.product_id) = []) :
    (orderRow products o).product_name = "Unknown"
    ∧ orderRow products o ∈ get_customer_orders_async orders products cid
    ∧ get_subscription_detail_async subs products invoices payments incidents sid
        = .ok ⟨s, none,
            (invoices.filter (fun i => i.subscription_id == sid)).map
              (enrichInvoice payments),
            incidents.filter (fun i => i.subscription_id == sid)⟩ := by
  refine ⟨?_, ?_, ?_⟩
  · simp [orderRow, hprod]
  · apply List.mem_map_of_mem
    rw [List.Perm.mem_iff (List.mergeSort_perm _ _)]
    exact List.mem_filter.mpr ⟨ho, hc⟩
  · simp only [get_subscription_detail_async, hs, hsprod, List.head?_nil,
      Option.map_none']

/-- Witness for C9: an order and a subscription both referencing
product 42, which is absent from the Products collection. -/
theorem missing_product_spec_witness :
    (orderRow [] ⟨1, 5, 42, "2025-01-01", 20, "shipped"⟩).product_name = "Unknown"
    ∧ orderRow [] ⟨1, 5, 42, "2025-01-01", 20, "shipped"⟩
        ∈ get_customer_orders_async [⟨1, 5, 42, "2025-01-01", 20, "shipped"⟩] [] 5
    ∧ get_subscription_detail_async [⟨2, 5, 42⟩] [] [⟨10, 2, 150⟩]
        [⟨"payment_1", 1, 10, "2025-01-02", 50, "credit_card", "successful"⟩] [] 2
        = .ok ⟨⟨2, 5, 42⟩, none,
            (([⟨10, 2, 150⟩] : List Invoice).filter
                (fun i => i.subscription_id == 2)).map
              (enrichInvoice
                [⟨"payment_1", 1, 10, "2025-01-02", 50, "credit_card", "successful"⟩]),
            ([] : List ServiceIncident).filter (fun i => i.subscription_id == 2)⟩ := by
  apply missing_product_spec
    [⟨1, 5, 42, "2025-01-01", 20, "shipped"⟩] [] 5
    ⟨1, 5, 42, "2025-01-01", 20, "shipped"⟩
    (by decide) (by decide) (by rfl)
    [⟨2, 5, 42⟩] [⟨10, 2, 150⟩]
    [⟨"payment_1", 1, 10, "2025-01-02", 50, "credit_card", "successful"⟩] [] 2
    ⟨2, 5, 42⟩ [] (by rfl) (by rfl)

-- ======================================================================
-- Subscription field update on raw documents
-- ======================================================================

/-- A scalar value of a stored document. -/
inductive DVal where
  | vstr (s : String)
  | vnum (q : ℚ)
  | vbool (b : Bool)
  deriving DecidableEq, Repr

/-- A stored document: an association list of field names to values;
the first binding of a key is its value (Python dicts have unique
keys). -/
abbrev Doc : Type := List (String × DVal)

/-- Field access on a document. -/
def dlookup (k : String) : Doc → Option DVal
  | [] => none
  | (k2, v) :: t => if k2 == k then some v else dlookup k t

/-- Field assignment on a document, like Python dict assignment:
replace the first binding of the key in place, or append a new
binding at the end. -/
def dset (d : Doc) (k : String) (v : DVal) : Doc :=
  match d with
  | [] => [(k, v)]
  | (k2, v2) :: t => if k2 == k then (k, v) :: t else (k2, v2) :: dset t k v

/-- The non-null entries of an update payload, in payload order:
data = only the keys whose supplied value is not None. -/
def dataOf (updates : List (String × Option DVal)) : List (String × DVal) :=
  updates.filterMap (fun kv => kv.2.map (fun v => (kv.1, v)))

/-- The merge loop of update_subscription_async: assign each non-null
supplied field over the existing document in payload order. -/
def mergeDoc (sub : Doc) (data : List (String × DVal)) : Doc :=
  data.foldl (fun d kv => dset d kv.1 kv.2) sub

/-- Result of update_subscription_async. -/
structure UpdateResult where
  subscription_id : ℚ
  updated_fields : List String
  deriving DecidableEq, Repr

/-- Embedding of update_subscription_async: reject an empty payload,
then a payload with only null values; resolve the subscription
document by its subscription_id field (NotFound if absent); merge the
non-null supplied fields over it and persist by whole-document
replace (the store swaps in the new body for the document with the
same id).  The second component is the new state of the Subscriptions
collection (unchanged on error). -/
def update_subscription_async (state : List Doc) (sid : ℚ)
    (updates : List (String × Option DVal)) :
    Except CSErr UpdateResult × List Doc :=
  if updates.isEmpty then (.error (.invalidInput "No fields supplied"), state)
  else
    let data := dataOf updates
    if data.isEmpty then (.error (.invalidInput "No valid fields to update"), state)
    else
      match state.filter
          (fun d => dlookup "subscription_id" d == some (DVal.vnum sid)) with
      | [] => (.error (.notFound "Subscription not found"), state)
      | sub :: _ =>
        let merged := mergeDoc sub data
        let newState := state.map (fun d =>
          if dlookup "id" d == dlookup "id" sub then merged else d)
        (.ok ⟨sid, data.map (fun kv => kv.1)⟩, newState)

lemma dlookup_dset (d : Doc) (k k2 : String) (v : DVal) :
    dlookup k2 (dset d k v) = if k == k2 then some v else dlookup k2 d := by
  induction d with
  | nil => by_cases h : k = k2 <;> simp [dset, dlookup, h]
  | cons kv t ih =>
    obtain ⟨k1, v1⟩ := kv
    by_cases h1 : k1 = k <;> by_cases h2 : k = k2 <;> by_cases h3 : k1 = k2 <;>
      simp_all [dset, dlookup]

lemma dlookup_append (l1 l2 : Doc) (k : String) :
    dlookup k (l1 ++ l2) = (dlookup k l1).or (dlookup k l2) := by
  induction l1 with
  | nil => simp [dlookup]
  | cons kv t ih =>
    obtain ⟨k1, v1⟩ := kv
    by_cases h : k1 = k <;> simp [dlookup, h, ih]

lemma dlookup_mergeDoc (data : List (String × DVal)) (sub : Doc) (k : String) :
    dlookup k (mergeDoc sub data)
      = (dlookup k data.reverse).or (dlookup k sub) := by
  induction data generalizing sub with
  | nil => simp [mergeDoc, dlookup]
  | cons kv t ih =>
    obtain ⟨k1, v1⟩ := kv
    simp only [mergeDoc, List.foldl_cons] at ih ⊢
    rw [ih (dset sub k1 v1), List.reverse_cons, dlookup_append,
      Option.or_assoc, dlookup_dset]
    by_cases h : k1 = k <;> simp [dlookup, h]

/-- C8: update_subscription_async fails with InvalidInput on an empty
payload and on a payload whose supplied values are all null, and with
NotFound when no stored document has the requested subscription_id;
in all three failure cases the collection state is returned
unchanged.  On success only the non-null supplied fields are merged
over the existing document (a field keeps its old value unless the
payload supplies a non-null value for it, in which case the last
supplied value wins) and the store is updated by whole-document
replace of that subscription's document. -/
theorem update_subscription_spec (state : List Doc) (sid : ℚ)
    (updates : List (String × Option DVal)) :
    (updates = [] →
      update_subscription_async state sid updates
        = (.error (.invalidInput "No fields supplied"), state))
    ∧ (updates ≠ [] → (∀ kv ∈ updates, kv.2 = none) →
        update_subscription_async state sid updates
          = (.error (.invalidInput "No valid fields to update"), state))
    ∧ (dataOf updates ≠ [] →
        state.filter
            (fun d => dlookup "subscription_id" d == some (DVal.vnum sid)) = [] →
        update_subscription_async state sid updates
          = (.error (.notFound "Subscription not found"), state))
    ∧ (∀ sub rest,
        dataOf updates ≠ [] →
        state.filter
            (fun d => dlookup "subscription_id" d == some (DVal.vnum sid))
          = sub :: rest →
        update_subscription_async state sid updates
            = (.ok ⟨sid, (dataOf updates).map (fun kv => kv.1)⟩,
               state.map (fun d =>
                 if dlookup "id" d == dlookup "id" sub
                 then mergeDoc sub (dataOf updates) else d))
          ∧ ∀ k, dlookup k (mergeDoc sub (dataOf updates))
              = (dlookup k (dataOf updates).reverse).or (dlookup k sub)) := by
  have hne_of_data : dataOf updates ≠ [] → updates.isEmpty = false := by
    intro hd
    cases hu : updates with
    | nil => exact absurd (by simp [dataOf, hu]) hd
    | cons a t => rfl
  refine ⟨?_, ?_, ?_, ?_⟩
  · intro h
    subst h
    rfl
  · intro hne hall
    have hdata : dataOf updates = [] := by
      apply List.filterMap_eq_nil_iff.mpr
      intro kv hkv
      rw [hall kv hkv]
      rfl
    have hE : updates.isEmpty = false := by
      cases hu : updates with
      | nil => exact absurd hu hne
      | cons a t => rfl
    simp only [update_subscription_async, hE, Bool.false_eq_true, if_false,
      hdata, List.isEmpty_nil, if_true]
  · intro hdata hf
    have hE := hne_of_data hdata
    have hDE : (dataOf updates).isEmpty = false := by
      cases hd : dataOf updates with
      | nil => exact absurd hd hdata
      | cons a t => rfl
    simp only [update_subscription_async, hE, Bool.false_eq_true, if_false,
      hDE, hf]
  · intro sub rest hdata hf
    have hE := hne_of_data hdata
    have hDE : (dataOf updates).isEmpty = false := by
      cases hd : dataOf updates with
      | nil => exact absurd hd hdata
      | cons a t => rfl
    refine ⟨?_, fun k => dlookup_mergeDoc _ _ _⟩
    simp only [update_subscription_async, hE, Bool.false_eq_true, if_false,
      hDE, hf]

/-- Witness for C8 on a one-document store: the empty payload and the
all-null payload are rejected as InvalidInput, an unknown
subscription id is rejected as NotFound (the state always coming back
unchanged), and a valid update merges only the non-null supplied
status field, leaving the id and autopay fields as they were. -/
theorem update_subscription_spec_witness :
    update_subscription_async
        [[("id", .vstr "subscription_1"), ("subscription_id", .vnum 2),
          ("status", .vstr "active"), ("autopay", .vbool false)]] 2 []
      = (.error (.invalidInput "No fields supplied"),
         [[("id", .vstr "subscription_1"), ("subscription_id", .vnum 2),
           ("status", .vstr "active"), ("autopay", .vbool false)]])
    ∧ update_subscription_async
        [[("id", .vstr "subscription_1"), ("subscription_id", .vnum 2),
          ("status", .vstr "active"), ("autopay", .vbool false)]] 2
        [("note", none)]
      = (.error (.invalidInput "No valid fields to update"),
         [[("id", .vstr "subscription_1"), ("subscription_id", .vnum 2),
           ("status", .vstr "active"), ("autopay", .vbool false)]])
    ∧ update_subscription_async
        [[("id", .vstr "subscription_1"), ("subscription_id", .vnum 2),
          ("status", .vstr "active"), ("autopay", .vbool false)]] 99
        [("status", some (.vstr "suspended"))]
      = (.error (.notFound "Subscription not found"),
         [[("id", .vstr "subscription_1"), ("subscription_id", .vnum 2),
           ("status", .vstr "active"), ("autopay", .vbool false)]])
    ∧ update_subscription_async
        [[("id", .vstr "subscription_1"), ("subscription_id", .vnum 2),
          ("status", .vstr "active"), ("autopay", .vbool false)]] 2
        [("status", some (.vstr "suspended")), ("note", none)]
      = (.ok ⟨2, ["status"]⟩,
         [[("id", .vstr "subscription_1"), ("subscription_id", .vnum 2),
           ("status", .vstr "suspended"), ("autopay", .vbool false)]])
    ∧ dlookup "autopay"
        (mergeDoc
          [("id", .vstr "subscription_1"), ("subscription_id", .vnum 2),
           ("status", .vstr "active"), ("autopay", .vbool false)]
          (dataOf [("status", some (.vstr "suspended")), ("note", none)]))
      = (dlookup "autopay"
          (dataOf [("status", some (.vstr "suspended")), ("note", none)]).reverse).or
          (dlookup "autopay"
            [("id", .vstr "subscription_1"), ("subscription_id", .vnum 2),
             ("status", .vstr "active"), ("autopay", .vbool false)]) := by
  refine ⟨?_, ?_, ?_, ?_, ?_⟩
  · exact (update_subscription_spec
      [[("id", .vstr "subscription_1"), ("subscription_id", .vnum 2),
        ("status", .vstr "active"), ("autopay", .vbool false)]] 2 []).1 rfl
  · exact (update_subscription_spec
      [[("id", .vstr "subscription_1"), ("subscription_id", .vnum 2),
        ("status", .vstr "active"), ("autopay", .vbool false)]] 2
      [("note", none)]).2.1 (by simp) (by simp)
  · exact (update_subscription_spec
      [[("id", .vstr "subscription_1"), ("subscription_id", .vnum 2),
        ("status", .vstr "active"), ("autopay", .vbool false)]] 99
      [("status", some (.vstr "suspended"))]).2.2.1 (by decide) (by decide)
  · exact ((update_subscription_spec
      [[("id", .vstr "subscription_1"), ("subscription_id", .vnum 2),
        ("status", .vstr "active"), ("autopay", .vbool false)]] 2
      [("status", some (.vstr "suspended")), ("note", none)]).2.2.2
      [("id", .vstr "subscription_1"), ("subscription_id", .vnum 2),
       ("status", .vstr "active"), ("autopay", .vbool false)] []
      (by decide) (by decide)).1.trans (by rfl)
  · exact ((update_subscription_spec
      [[("id", .vstr "subscription_1"), ("subscription_id", .vnum 2),
        ("status", .vstr "active"), ("autopay", .vbool false)]] 2
      [("status", some (.vstr "suspended")), ("note", none)]).2.2.2
      [("id", .vstr "subscription_1"), ("subscription_id", .vnum 2),
       ("status", .vstr "active"), ("autopay", .vbool false)] []
      (by decide) (by decide)).2 "autopay"

end Contoso
